import Mathlib

/-!
Shallow embedding of the session-lifecycle / answer-tracking core and the
credit-gated generation request flow of the AI-Exams repository.

Sources embedded:
- `src/store/useSessionStore.ts` (session store: `convertQuestionsFormat`,
  `createSession`, `updateSessionName`, `deleteSession`, `setCurrentSession`,
  `saveAnswer`, `clearAnswers`, `markSessionCompleted`, `resetSession`,
  `saveAnalysis`, `getRecentSessions`, `getSessionById`, `refreshSession`).
- `src/store/useCreditsStore.ts` (client-local version: `decrementCredits`,
  `resetCredits`, `setLocalApiKey`, `removeLocalApiKey`, `isUsingLocalKey`).
- `src/hooks/useEnhancedEduQuest.ts` (`checkCreditsAndDeduct`,
  `generateWithContext`).
- `src/pages/api/generate-with-context.ts` (`handler`, embedded as
  `generateWithContextHandler`).

Modelling conventions: JS `Date` values are `Nat` millisecond timestamps and
every operation that calls `new Date()` / `Date.now()` receives the current
time as an explicit `now` parameter; the random id suffix is an explicit
`rand` parameter; JS numbers in config/analysis records are `Int`; the
external AI collaborator is an explicit oracle argument; zustand's `set` is
explicit state passing.  JS `Array.prototype.sort` with a user comparator is
modelled by the stable `List.insertionSort` (ECMAScript sorts are stable, and
any two stable sorts under the same total preorder agree).
-/

namespace AIExams

/-- The five question kinds of `Question.type` in `useSessionStore.ts`. -/
inductive QType where
  | mcq
  | fill
  | true_false
  | short
  | long
deriving DecidableEq, Repr

/-- `Question` from `useSessionStore.ts`. -/
structure Question where
  id : String
  question : String
  type : QType
  options : Option (List String)
  answer : String
  explanation : Option String
  points : Option Int
deriving DecidableEq, Repr

/-- `string | boolean` values (user answers). -/
inductive AnswerValue where
  | str (s : String)
  | bool (b : Bool)
deriving DecidableEq, Repr

/-- `UserAnswer` from `useSessionStore.ts`. -/
structure UserAnswer where
  questionId : String
  answer : AnswerValue
  isCorrect : Option Bool
  timestamp : Nat
deriving DecidableEq, Repr

/-- `SessionAnalysis` from `useSessionStore.ts`. -/
structure SessionAnalysis where
  score : Int
  totalQuestions : Int
  percentage : Int
  feedback : String
  accuracyScore : Int
  timestamp : Nat
deriving DecidableEq, Repr

/-- The five per-kind question counts (`config` of a session; also the
request config of the generation endpoint). -/
structure QuestionConfig where
  mcqs : Int
  fillInBlanks : Int
  trueFalse : Int
  shortType : Int
  longType : Int
deriving DecidableEq, Repr

/-- `QuizSession` from `useSessionStore.ts`. -/
structure QuizSession where
  id : String
  name : String
  description : Option String
  questions : List Question
  userAnswers : List UserAnswer
  createdAt : Nat
  lastAccessed : Nat
  isCompleted : Bool
  analysis : Option SessionAnalysis
  topic : String
  config : QuestionConfig
deriving DecidableEq, Repr

/-- The state of the zustand session store. -/
structure SessionState where
  sessions : List QuizSession
  currentSession : Option QuizSession
  isHydrated : Bool
deriving DecidableEq, Repr

/-- Raw MCQ item of the loosely-typed generation result. -/
structure RawMCQ where
  question : String
  options : List String
  answer : String
  explanation : Option String
deriving DecidableEq, Repr

/-- Raw fill-in-the-blank item of the generation result. -/
structure RawFill where
  question : String
  answer : String
  explanation : Option String
deriving DecidableEq, Repr

/-- Raw true/false item of the generation result (boolean answer). -/
structure RawTF where
  question : String
  answer : Bool
  explanation : Option String
deriving DecidableEq, Repr

/-- Raw short/long answer item of the generation result. -/
structure RawPointed where
  question : String
  answer : String
  points : Option Int
deriving DecidableEq, Repr

/-- The raw generation result (`data` argument of `convertQuestionsFormat`):
five optional parallel arrays, one per question kind.  An absent array is
`none` (JS `undefined`). -/
structure RawData where
  mcqs : Option (List RawMCQ)
  fill_in_the_blanks : Option (List RawFill)
  true_false : Option (List RawTF)
  short_type : Option (List RawPointed)
  long_type : Option (List RawPointed)
deriving DecidableEq, Repr

/-- One `forEach((item, index) => questions.push(mk index item))` loop of
`convertQuestionsFormat`, starting at index `i`. -/
def convertFrom (mk : Nat → α → Question) : Nat → List α → List Question
  | _, [] => []
  | i, x :: xs => mk i x :: convertFrom mk (i + 1) xs

/-- One `if (data.xxx) { data.xxx.forEach(...) }` block of
`convertQuestionsFormat`: an absent (`none`) array contributes nothing,
exactly like the skipped branch; a present one is iterated from index 0. -/
def convertChunk (o : Option (List α)) (mk : Nat → α → Question) :
    List Question :=
  match o with
  | none => []
  | some l => convertFrom mk 0 l

/-- `convertQuestionsFormat` from `useSessionStore.ts`: converts the raw
generation result into the flat question list, iterating the kind arrays in
the fixed source order mcq, fill-in-the-blanks, true/false, short, long.
A `none` (absent) array contributes nothing, exactly like the skipped
`if (data.xxx)` branch.  The true/false boolean answer is stringified
(`tf.answer.toString()`). -/
def convertQuestionsFormat (data : RawData) : List Question :=
  convertChunk data.mcqs (fun index mcq =>
    { id := "mcq_" ++ toString index, question := mcq.question,
      type := QType.mcq, options := some mcq.options,
      answer := mcq.answer, explanation := mcq.explanation,
      points := none })
  ++ convertChunk data.fill_in_the_blanks (fun index fill =>
    { id := "fill_" ++ toString index, question := fill.question,
      type := QType.fill, options := none,
      answer := fill.answer, explanation := fill.explanation,
      points := none })
  ++ convertChunk data.true_false (fun index tf =>
    { id := "tf_" ++ toString index, question := tf.question,
      type := QType.true_false, options := none,
      answer := toString tf.answer, explanation := tf.explanation,
      points := none })
  ++ convertChunk data.short_type (fun index short =>
    { id := "short_" ++ toString index, question := short.question,
      type := QType.short, options := none,
      answer := short.answer, explanation := none,
      points := short.points })
  ++ convertChunk data.long_type (fun index long =>
    { id := "long_" ++ toString index, question := long.question,
      type := QType.long, options := none,
      answer := long.answer, explanation := none,
      points := long.points })

/-- `createSession` from `useSessionStore.ts`.  `now` is `Date.now()` /
`new Date()`, `rand` the random id suffix.  Returns the new session id and
the updated state (the new session is prepended and becomes current). -/
def createSession (name topic : String) (questions : RawData)
    (config : QuestionConfig) (now : Nat) (rand : String)
    (st : SessionState) : String × SessionState :=
  let sessionId := "session_" ++ toString now ++ "_" ++ rand
  let newSession : QuizSession :=
    { id := sessionId
      name := if name = "" then "Quiz on " ++ topic else name
      description := some ("Assessment on " ++ topic)
      questions := convertQuestionsFormat questions
      userAnswers := []
      createdAt := now
      lastAccessed := now
      isCompleted := false
      analysis := none
      topic := topic
      config := config }
  (sessionId,
    { st with sessions := newSession :: st.sessions,
              currentSession := some newSession })

/-- `updateSessionName` from `useSessionStore.ts`: renames the collection
entry; note the source touches only `sessions`, never `currentSession`. -/
def updateSessionName (sessionId name : String) (st : SessionState) :
    SessionState :=
  { st with sessions := st.sessions.map (fun session =>
      if session.id == sessionId then { session with name := name }
      else session) }

/-- `deleteSession` from `useSessionStore.ts`. -/
def deleteSession (sessionId : String) (st : SessionState) : SessionState :=
  { st with
    sessions := st.sessions.filter (fun session => session.id != sessionId)
    currentSession :=
      match st.currentSession with
      | some c => if c.id == sessionId then none else some c
      | none => none }

/-- `setCurrentSession` from `useSessionStore.ts`. -/
def setCurrentSession (sessionId : String) (now : Nat) (st : SessionState) :
    SessionState :=
  match st.sessions.find? (fun s => s.id == sessionId) with
  | none => st
  | some session =>
    let updatedSession := { session with lastAccessed := now }
    { st with currentSession := some updatedSession,
              sessions := st.sessions.map (fun s =>
                if s.id == sessionId then updatedSession else s) }

/-- The `findIndex`-then-`set`-or-`push` update of `saveAnswer`: replace the
first existing answer for `questionId`, else append. -/
def upsertAnswer (questionId : String) (newAnswer : UserAnswer)
    (answers : List UserAnswer) : List UserAnswer :=
  match answers.findIdx? (fun a => a.questionId == questionId) with
  | some i => answers.set i newAnswer
  | none => answers ++ [newAnswer]

/-- `saveAnswer` from `useSessionStore.ts`: records an answer on the current
session (no-op when there is none), propagating the updated session into the
collection. -/
def saveAnswer (questionId : String) (answer : AnswerValue) (now : Nat)
    (st : SessionState) : SessionState :=
  match st.currentSession with
  | none => st
  | some cur =>
    let newAnswer : UserAnswer :=
      { questionId := questionId, answer := answer, isCorrect := none,
        timestamp := now }
    let updatedSession :=
      { cur with userAnswers := upsertAnswer questionId newAnswer cur.userAnswers,
                 lastAccessed := now }
    { st with currentSession := some updatedSession,
              sessions := st.sessions.map (fun s =>
                if s.id == cur.id then updatedSession else s) }

/-- `clearAnswers` from `useSessionStore.ts`. -/
def clearAnswers (sessionId : String) (st : SessionState) : SessionState :=
  { st with
    sessions := st.sessions.map (fun session =>
      if session.id == sessionId then
        { session with userAnswers := [], isCompleted := false,
                       analysis := none }
      else session)
    currentSession :=
      match st.currentSession with
      | some c =>
        if c.id == sessionId then
          some { c with userAnswers := [], isCompleted := false,
                        analysis := none }
        else some c
      | none => none }

/-- `markSessionCompleted` from `useSessionStore.ts`. -/
def markSessionCompleted (sessionId : String) (st : SessionState) :
    SessionState :=
  { st with
    sessions := st.sessions.map (fun session =>
      if session.id == sessionId then { session with isCompleted := true }
      else session)
    currentSession :=
      match st.currentSession with
      | some c =>
        if c.id == sessionId then some { c with isCompleted := true }
        else some c
      | none => none }

/-- `resetSession` from `useSessionStore.ts` (delegates to `clearAnswers`). -/
def resetSession (sessionId : String) (st : SessionState) : SessionState :=
  clearAnswers sessionId st

/-- `saveAnalysis` from `useSessionStore.ts`: attaches the analysis and marks
the session completed, in both copies. -/
def saveAnalysis (sessionId : String) (analysis : SessionAnalysis)
    (st : SessionState) : SessionState :=
  { st with
    sessions := st.sessions.map (fun session =>
      if session.id == sessionId then
        { session with analysis := some analysis, isCompleted := true }
      else session)
    currentSession :=
      match st.currentSession with
      | some c =>
        if c.id == sessionId then
          some { c with analysis := some analysis, isCompleted := true }
        else some c
      | none => none }

/-- Descending order on `lastAccessed`, the comparator
`(a, b) => new Date(b.lastAccessed).getTime() - new Date(a.lastAccessed).getTime()`
of `getRecentSessions`. -/
def byLastAccessedDesc (a b : QuizSession) : Prop :=
  b.lastAccessed ≤ a.lastAccessed

instance : DecidableRel byLastAccessedDesc :=
  fun a b => Nat.decLe b.lastAccessed a.lastAccessed

instance : IsTotal QuizSession byLastAccessedDesc :=
  ⟨fun a b => Nat.le_total b.lastAccessed a.lastAccessed⟩

instance : IsTrans QuizSession byLastAccessedDesc :=
  ⟨fun _ _ _ hab hbc => Nat.le_trans hbc hab⟩

/-- `getRecentSessions` from `useSessionStore.ts`:
`get().sessions.sort(cmp).slice(0, limit)`.  JS `sort` mutates the array held
in the store state in place, so the call returns the first `limit` sessions
of the sorted array AND leaves the store's `sessions` permanently sorted;
both effects are returned as a pair. -/
def getRecentSessions (limit : Nat) (st : SessionState) :
    List QuizSession × SessionState :=
  let sorted := List.insertionSort byLastAccessedDesc st.sessions
  (sorted.take limit, { st with sessions := sorted })

/-- `getSessionById` from `useSessionStore.ts`. -/
def getSessionById (sessionId : String) (st : SessionState) :
    Option QuizSession :=
  st.sessions.find? (fun session => session.id == sessionId)

/-- `getCompletedSessions` from `useSessionStore.ts`. -/
def getCompletedSessions (st : SessionState) : List QuizSession :=
  st.sessions.filter (fun session => session.isCompleted)

/-- `getIncompleteSessions` from `useSessionStore.ts`. -/
def getIncompleteSessions (st : SessionState) : List QuizSession :=
  st.sessions.filter (fun session => !session.isCompleted)

/-- `refreshSession` from `useSessionStore.ts`: like `setCurrentSession` but
also returns the refreshed session (or `none` when absent). -/
def refreshSession (sessionId : String) (now : Nat) (st : SessionState) :
    Option QuizSession × SessionState :=
  match st.sessions.find? (fun s => s.id == sessionId) with
  | none => (none, st)
  | some session =>
    let updatedSession := { session with lastAccessed := now }
    (some updatedSession,
      { st with currentSession := some updatedSession,
                sessions := st.sessions.map (fun s =>
                  if s.id == sessionId then updatedSession else s) })

/-- The initial session-store state. -/
def initialSessionState : SessionState :=
  { sessions := [], currentSession := none, isHydrated := false }

/-! ### Credit ledger (`useCreditsStore.ts`, client-local version) -/

/-- The state of the zustand credits store. -/
structure CreditsState where
  credits : Int
  localApiKey : Option String
  usingLocalKey : Bool
  isHydrated : Bool
deriving DecidableEq, Repr

/-- `INITIAL_CREDITS` from `useCreditsStore.ts`. -/
def INITIAL_CREDITS : Int := 4

/-- The initial credits-store state. -/
def initialCreditsState : CreditsState :=
  { credits := INITIAL_CREDITS, localApiKey := none, usingLocalKey := false,
    isHydrated := false }

/-- JS truthiness of `state.localApiKey` (an optional string): `null` and the
empty string are falsy. -/
def strTruthy : Option String → Bool
  | none => false
  | some s => s != ""

/-- `decrementCredits` from `useCreditsStore.ts`: returns true without
mutation when a local API key is set; returns false without mutation when no
credits remain; otherwise decrements by one and returns true. -/
def decrementCredits (st : CreditsState) : Bool × CreditsState :=
  if strTruthy st.localApiKey then (true, st)
  else if st.credits ≤ 0 then (false, st)
  else (true, { st with credits := st.credits - 1 })

/-- `resetCredits` from `useCreditsStore.ts`. -/
def resetCredits (st : CreditsState) : CreditsState :=
  { st with credits := INITIAL_CREDITS }

/-- `setLocalApiKey` from `useCreditsStore.ts`. -/
def setLocalApiKey (key : String) (st : CreditsState) : CreditsState :=
  { st with localApiKey := some key, usingLocalKey := true }

/-- `removeLocalApiKey` from `useCreditsStore.ts`. -/
def removeLocalApiKey (st : CreditsState) : CreditsState :=
  { st with localApiKey := none, usingLocalKey := false }

/-- `isUsingLocalKey` from `useCreditsStore.ts`:
`get().usingLocalKey && get().localApiKey !== null`. -/
def isUsingLocalKey (st : CreditsState) : Bool :=
  st.usingLocalKey && st.localApiKey.isSome

/-- A sequence of `n` consecutive `decrementCredits` calls; returns the
number of calls that returned `true`, and the final state. -/
def runDecrements : Nat → CreditsState → Nat × CreditsState
  | 0, st => (0, st)
  | n + 1, st =>
    let step := decrementCredits st
    let rest := runDecrements n step.2
    ((if step.1 then 1 else 0) + rest.1, rest.2)

/-! ### Generation request gate (`useEnhancedEduQuest.ts`) -/

/-- `UploadedFile` of the hook (the `File` payload is abstracted to its
name). -/
structure UploadedFile where
  id : String
  file : String
  preview : Option String
  category : String
deriving DecidableEq, Repr

/-- `GenerationResult` of the hook. -/
structure GenerationResult where
  questions : RawData
  sessionId : String
  extractedContent : Option (List String)
deriving DecidableEq, Repr

/-- `ApiError` of the hook (`details` omitted, never inspected by the core). -/
structure HookApiError where
  code : String
  message : String
deriving DecidableEq, Repr

/-- The `response.data.error` payload: absent, a bare string, or an object
with optional `code`/`message`. -/
inductive ErrData where
  | absent
  | str (s : String)
  | obj (code : Option String) (message : Option String)
deriving DecidableEq, Repr

/-- The error-message extraction of `generateWithContext`: a string error is
used directly, an object error with a `message` yields that message, and
anything else falls back to the given default. -/
def extractErrMsg (e : ErrData) (fallback : String) : String :=
  match e with
  | ErrData.str s => s
  | ErrData.obj _ (some m) => m
  | _ => fallback

/-- One outbound call of the hook to the external generation service:
either the multimodal endpoint (files + optional prompt) or the text-only
endpoint. -/
inductive GenCall where
  | multimodal (files : List String) (prompt : Option String)
      (config : QuestionConfig)
  | textOnly (topic : String) (config : QuestionConfig) (sessionId : String)
deriving DecidableEq, Repr

/-- The `response.data` envelope returned by the external generation
service: `dataMM` is the multimodal payload (`data` of
`/api/generate-with-context`), `dataQS` the text-only question payload of
`/api/generate-questions`, `sessionId` the optional server-side session id
of the text-only response. -/
structure ExtResponse where
  success : Bool
  dataMM : Option GenerationResult
  dataQS : Option RawData
  sessionId : Option String
  error : ErrData
deriving DecidableEq, Repr

/-- The observable outcome of one `generateWithContext` call: the returned
value (`null` on failure), the error state left in the hook, the resulting
credits state, and the list of external generation calls made. -/
structure HookResult where
  value : Option GenerationResult
  error : Option HookApiError
  credits : CreditsState
  calls : List GenCall
deriving DecidableEq, Repr

/-- `checkCreditsAndDeduct` from `useEnhancedEduQuest.ts`: skip the check
when a local API key is in use, else try to deduct a credit. -/
def checkCreditsAndDeduct (st : CreditsState) : Bool × CreditsState :=
  if isUsingLocalKey st then (true, st) else decrementCredits st

/-- Default question counts.  Modelled from the spec: `QUESTION_CONFIG.DEFAULT`
lives in `src/config/api.ts`, which is not part of the sources; the spec and
the API route give the per-kind defaults 5/5/5/3/2. -/
def QUESTION_CONFIG_DEFAULT : QuestionConfig :=
  { mcqs := 5, fillInBlanks := 5, trueFalse := 5, shortType := 3,
    longType := 2 }

/-- JS truthiness of the optional `prompt` argument (undefined and the empty
string are falsy). -/
def promptTruthy : Option String → Bool
  | none => false
  | some s => s != ""

/-- The quota-exhausted error object set by `generateWithContext`. -/
def noCreditsApiError : HookApiError :=
  { code := "NO_CREDITS"
    message := "You have 0 generations remaining. Please add your own API key to continue." }

/-- `generateWithContext` from `useEnhancedEduQuest.ts`.  `api` is the
external generation collaborator (black box per the spec); `now`/`rand` feed
the client-side session id of the text-only branch; `config` is the caller's
override of the default config (`none` when not supplied).  The structure
mirrors the source: first `checkCreditsAndDeduct`, short-circuiting to a
`NO_CREDITS` error; then the multimodal branch when files are present, else
the text-only branch when the prompt is truthy, else the thrown
`No content provided` error, which `handleApiError` classifies as
`UNKNOWN_ERROR` (a plain `Error`, not an axios error). -/
def generateWithContext (files : List UploadedFile) (prompt : Option String)
    (config : Option QuestionConfig) (now : Nat) (rand : String)
    (st : CreditsState) (api : GenCall → ExtResponse) : HookResult :=
  let cd := checkCreditsAndDeduct st
  if cd.1 = false then
    { value := none, error := some noCreditsApiError, credits := cd.2,
      calls := [] }
  else
    let finalConfig := config.getD QUESTION_CONFIG_DEFAULT
    if files.length > 0 then
      let call := GenCall.multimodal (files.map (fun f => f.file))
        (if promptTruthy prompt then prompt else none) finalConfig
      let r := api call
      if r.success && r.dataMM.isSome then
        { value := r.dataMM, error := none, credits := cd.2, calls := [call] }
      else
        let e : HookApiError :=
          { code := "UNKNOWN_ERROR"
            message := extractErrMsg r.error
              "Failed to generate questions with context" }
        { value := none, error := some e, credits := cd.2, calls := [call] }
    else if promptTruthy prompt then
      let sessionId := "session_" ++ toString now ++ "_" ++ rand
      let call := GenCall.textOnly (prompt.getD "") finalConfig sessionId
      let r := api call
      let e : HookApiError :=
        { code := "UNKNOWN_ERROR"
          message := extractErrMsg r.error "Failed to generate questions" }
      match r.dataQS with
      | some qs =>
        if r.success then
          let v : GenerationResult :=
            { questions := qs
              sessionId := r.sessionId.getD sessionId
              extractedContent := none }
          { value := some v, error := none, credits := cd.2, calls := [call] }
        else
          { value := none, error := some e, credits := cd.2, calls := [call] }
      | none =>
        { value := none, error := some e, credits := cd.2, calls := [call] }
    else
      let e : HookApiError :=
        { code := "UNKNOWN_ERROR", message := "No content provided" }
      { value := none, error := some e, credits := cd.2, calls := [] }

/-! ### API route `pages/api/generate-with-context.ts` -/

/-- A parsed uploaded file of the API route (buffer abstracted to a
string). -/
structure ProcessedFile where
  filename : String
  mimeType : String
  content : String
deriving DecidableEq, Repr

/-- Outcome of the `generateQuestionsWithContext` external call:
a question set, or a thrown error (`apiKeyRelated` models
`error.message.includes('API key')`). -/
inductive GenOutcome where
  | ok (qs : RawData)
  | thrown (apiKeyRelated : Bool) (msg : String)
deriving DecidableEq, Repr

/-- The observable outcome of the API route handler. -/
structure HandlerResult where
  status : Nat
  success : Bool
  errorCode : Option String
  sessionId : Option String
  genCalls : Nat
deriving DecidableEq, Repr

/-- The zod `requestSchema` bounds of the API route:
mcqs/fillInBlanks/trueFalse in [0,20], shortType in [0,10],
longType in [0,5]. -/
def validConfig (c : QuestionConfig) : Bool :=
  (0 ≤ c.mcqs && c.mcqs ≤ 20) && (0 ≤ c.fillInBlanks && c.fillInBlanks ≤ 20)
    && (0 ≤ c.trueFalse && c.trueFalse ≤ 20)
    && (0 ≤ c.shortType && c.shortType ≤ 10)
    && (0 ≤ c.longType && c.longType ≤ 5)

/-- `prompt || undefined` of the API route: the empty string becomes
absent. -/
def normPrompt : Option String → Option String
  | none => none
  | some s => if s = "" then none else some s

/-- The POST body of `handler` in `pages/api/generate-with-context.ts`,
after form parsing: validate the config against the zod schema (a failure is
caught as a `ZodError` and answered with `VALIDATION_ERROR`); reject with
`NO_CONTENT` when there are no files and no (or an empty) prompt; otherwise
invoke `generateQuestionsWithContext` exactly once and either answer 200
with a fresh session id or classify the thrown error
(`AI_SERVICE_ERROR` when API-key related, else `INTERNAL_ERROR`).
File preprocessing is folded into the collaborator outcome (out of core
scope per the spec). -/
def generateWithContextHandler (processedFiles : List ProcessedFile)
    (prompt : Option String) (config : QuestionConfig) (now : Nat)
    (rand : String) (gen : GenOutcome) : HandlerResult :=
  if validConfig config = false then
    { status := 400, success := false,
      errorCode := some "VALIDATION_ERROR", sessionId := none, genCalls := 0 }
  else if processedFiles.length = 0 && (normPrompt prompt).isNone then
    { status := 400, success := false,
      errorCode := some "NO_CONTENT", sessionId := none, genCalls := 0 }
  else
    match gen with
    | GenOutcome.ok _ =>
      { status := 200, success := true, errorCode := none,
        sessionId := some ("session_" ++ toString now ++ "_" ++ rand),
        genCalls := 1 }
    | GenOutcome.thrown apiKeyRelated _ =>
      { status := 500, success := false,
        errorCode := some (if apiKeyRelated then "AI_SERVICE_ERROR"
          else "INTERNAL_ERROR"),
        sessionId := none, genCalls := 1 }

/-! ### Invariants and derived notions used by the claims -/

/-- Dual-copy consistency: when a current session is cached, it is
deep-equal to the collection entry bearing its id. -/
def dualCopyOK (st : SessionState) : Bool :=
  match st.currentSession with
  | none => true
  | some c => decide (getSessionById c.id st = some c)

/-- The mutating session-store operations of the dual-copy claim, except
`updateSessionName` (which the code makes touch only the collection). -/
inductive MutOp where
  | create (name topic : String) (questions : RawData)
      (config : QuestionConfig) (now : Nat) (rand : String)
  | setCurrent (sessionId : String) (now : Nat)
  | save (questionId : String) (answer : AnswerValue) (now : Nat)
  | clear (sessionId : String)
  | markCompleted (sessionId : String)
  | attachAnalysis (sessionId : String) (analysis : SessionAnalysis)
  | refresh (sessionId : String) (now : Nat)
deriving DecidableEq, Repr

/-- Application of a mutating operation to the session store state. -/
def applyMutOp : MutOp → SessionState → SessionState
  | MutOp.create n t qs c now r, st => (createSession n t qs c now r st).2
  | MutOp.setCurrent sid now, st => setCurrentSession sid now st
  | MutOp.save q v now, st => saveAnswer q v now st
  | MutOp.clear sid, st => clearAnswers sid st
  | MutOp.markCompleted sid, st => markSessionCompleted sid st
  | MutOp.attachAnalysis sid an, st => saveAnalysis sid an st
  | MutOp.refresh sid now, st => (refreshSession sid now st).2

/-- The answer foreign-key invariant of one session: every recorded
answer's `questionId` is the id of some question of that session. -/
def fkSession (s : QuizSession) : Bool :=
  s.userAnswers.all (fun a =>
    s.questions.any (fun qu => qu.id == a.questionId))

/-- The answer foreign-key invariant over the whole store state: every
session of the collection and the cached current session satisfy
`fkSession`. -/
def fkState (st : SessionState) : Bool :=
  st.sessions.all fkSession &&
    (match st.currentSession with
      | none => true
      | some c => fkSession c)

/-- The id/kind characterization of the normalizer: the `(id, type)` pairs
contributed by one kind array of length `n`. -/
def kindIds (tag : String) (ty : QType) (n : Nat) : List (String × QType) :=
  (List.range n).map (fun i => (tag ++ "_" ++ toString i, ty))

/-- Replace absent kind arrays by present-but-empty ones. -/
def withAbsentEmpty (data : RawData) : RawData :=
  { mcqs := some (data.mcqs.getD [])
    fill_in_the_blanks := some (data.fill_in_the_blanks.getD [])
    true_false := some (data.true_false.getD [])
    short_type := some (data.short_type.getD [])
    long_type := some (data.long_type.getD []) }

/-! ### Concrete fixtures used by witnesses and counterexamples -/

/-- A sample question used by concrete witnesses. -/
def sampleQuestion : Question :=
  { id := "mcq_0", question := "Q1", type := QType.mcq,
    options := some ["a", "b"], answer := "a", explanation := none,
    points := none }

/-- A sample one-question session used by concrete witnesses. -/
def sampleSession : QuizSession :=
  { id := "s1", name := "Quiz", description := none,
    questions := [sampleQuestion], userAnswers := [], createdAt := 0,
    lastAccessed := 0, isCompleted := false, analysis := none,
    topic := "Biology", config := QUESTION_CONFIG_DEFAULT }

/-- A sample store state whose current session is `sampleSession`. -/
def sampleState : SessionState :=
  { sessions := [sampleSession], currentSession := some sampleSession,
    isHydrated := true }

/-- A sample analysis value used by concrete witnesses. -/
def sampleAnalysis : SessionAnalysis :=
  { score := 82, totalQuestions := 1, percentage := 82, feedback := "Good",
    accuracyScore := 80, timestamp := 9 }

/-- A raw MCQ item used by concrete fixtures. -/
def sampleRawMCQ : RawMCQ :=
  { question := "Q1", options := ["a", "b"], answer := "a",
    explanation := none }

/-- A raw generation result with a single MCQ, used by concrete fixtures. -/
def sampleRaw : RawData :=
  { mcqs := some [sampleRawMCQ]
    fill_in_the_blanks := none
    true_false := none
    short_type := none
    long_type := none }

/-- A store state whose sessions are not in descending `lastAccessed`
order. -/
def unsortedState : SessionState :=
  { sessions := [sampleSession,
      { sampleSession with id := "s2", lastAccessed := 1 }]
    currentSession := none
    isHydrated := false }

/-- A hydrated credits state with no credits left and no override. -/
def exhaustedCreditsState : CreditsState :=
  { credits := 0, localApiKey := none, usingLocalKey := false,
    isHydrated := true }

/-- A trivial external response used by concrete witnesses. -/
def nullExtResponse : ExtResponse :=
  { success := false, dataMM := none, dataQS := none, sessionId := none,
    error := ErrData.absent }

/-- A config violating the zod bounds (`mcqs` above 20). -/
def badConfig : QuestionConfig :=
  { mcqs := 25, fillInBlanks := 5, trueFalse := 5, shortType := 3,
    longType := 2 }

/-! ## Helper lemmas -/

/-- Shifting the start index of `findIdx?` by one shifts every result by
one. -/
lemma findIdx?_shift (p : α → Bool) (xs : List α) :
    ∀ i : Nat, List.findIdx? p xs (i + 1) =
      (List.findIdx? p xs i).map (fun j => j + 1) := by
  induction xs with
  | nil => intro i; rfl
  | cons x xs ih =>
    intro i
    show (if p x then some (i + 1) else List.findIdx? p xs (i + 1 + 1)) =
      (if p x then some i else List.findIdx? p xs (i + 1)).map (fun j => j + 1)
    cases hp : p x with
    | true => simp
    | false => simp [ih (i + 1)]

lemma upsertAnswer_nil (q : String) (na : UserAnswer) :
    upsertAnswer q na [] = [na] := rfl

lemma upsertAnswer_cons_pos (q : String) (na x : UserAnswer)
    (xs : List UserAnswer) (hx : (x.questionId == q) = true) :
    upsertAnswer q na (x :: xs) = na :: xs := by
  have hfind : (x :: xs).findIdx? (fun a => a.questionId == q) = some 0 := by
    show (if (x.questionId == q) then some 0 else
      List.findIdx? (fun a => a.questionId == q) xs 1) = some 0
    rw [hx]
    rfl
  unfold upsertAnswer
  rw [hfind]
  rfl

lemma upsertAnswer_cons_neg (q : String) (na x : UserAnswer)
    (xs : List UserAnswer) (hx : (x.questionId == q) = false) :
    upsertAnswer q na (x :: xs) = x :: upsertAnswer q na xs := by
  have hfind : (x :: xs).findIdx? (fun a => a.questionId == q) =
      (xs.findIdx? (fun a => a.questionId == q)).map (fun j => j + 1) := by
    show (if (x.questionId == q) then some 0 else
        List.findIdx? (fun a => a.questionId == q) xs 1) = _
    rw [hx]
    simp only [Bool.false_eq_true, if_false]
    exact findIdx?_shift (fun a => a.questionId == q) xs 0
  unfold upsertAnswer
  rw [hfind]
  cases hf : xs.findIdx? (fun a => a.questionId == q) with
  | none => simp [hf]
  | some j => simp [hf]

/-- Upserting twice for the same question id, starting from a list holding
at most one answer for it, leaves exactly the second answer for that id. -/
lemma upsert_upsert_filter (q : String) (a1 a2 : UserAnswer)
    (h1 : a1.questionId = q) (h2 : a2.questionId = q) :
    ∀ l : List UserAnswer,
      (l.filter (fun a => a.questionId == q)).length ≤ 1 →
      (upsertAnswer q a2 (upsertAnswer q a1 l)).filter
        (fun a => a.questionId == q) = [a2] := by
  intro l
  induction l with
  | nil =>
    intro _
    rw [upsertAnswer_nil, upsertAnswer_cons_pos q a2 a1 [] (by simp [h1])]
    simp [h2]
  | cons x xs ih =>
    intro hdup
    cases hx : (x.questionId == q) with
    | true =>
      rw [upsertAnswer_cons_pos q a1 x xs hx,
        upsertAnswer_cons_pos q a2 a1 xs (by simp [h1])]
      have h' : (x :: xs.filter (fun a => a.questionId == q)).length ≤ 1 := by
        rw [List.filter_cons] at hdup
        rw [hx] at hdup
        simpa using hdup
      have hxs : xs.filter (fun a => a.questionId == q) = [] := by
        cases hfe : xs.filter (fun a => a.questionId == q) with
        | nil => rfl
        | cons y ys =>
          rw [hfe] at h'
          simp at h'
      simp [List.filter_cons, h2, hxs]
    | false =>
      rw [upsertAnswer_cons_neg q a1 x xs hx,
        upsertAnswer_cons_neg q a2 x _ hx]
      have hdup2 : (xs.filter (fun a => a.questionId == q)).length ≤ 1 := by
        simpa [List.filter_cons, hx] using hdup
      simp only [List.filter_cons, hx, Bool.false_eq_true, if_false]
      exact ih hdup2

/-- `find?` commutes with a `map` that does not change the predicate's
value on any element. -/
lemma find?_map_pres (g : α → α) (p : α → Bool) (h : ∀ x, p (g x) = p x) :
    ∀ l : List α, (l.map g).find? p = (l.find? p).map g := by
  intro l
  induction l with
  | nil => rfl
  | cons x xs ih =>
    simp only [List.map_cons]
    cases hp : p x with
    | true =>
      rw [List.find?_cons_of_pos _ (by rw [h x, hp]),
        List.find?_cons_of_pos _ hp]
      rfl
    | false =>
      rw [List.find?_cons_of_neg _ (by rw [h x, hp]; simp),
        List.find?_cons_of_neg _ (by rw [hp]; simp), ih]

lemma dualCopyOK_intro (st : SessionState)
    (h : ∀ c, st.currentSession = some c → getSessionById c.id st = some c) :
    dualCopyOK st = true := by
  unfold dualCopyOK
  cases hc : st.currentSession with
  | none => rfl
  | some c => simpa using h c hc

lemma dualCopyOK_some {st : SessionState} {c : QuizSession}
    (h : dualCopyOK st = true) (hc : st.currentSession = some c) :
    st.sessions.find? (fun s => s.id == c.id) = some c := by
  unfold dualCopyOK at h
  rw [hc] at h
  simpa [getSessionById] using h

/-- Replacing every entry matching `sid` by a fixed record `upd` whose id is
`sid` makes the first `upd.id` match be `upd`, provided a `sid` match
existed. -/
lemma find?_replace (l : List QuizSession) (sid tid : String)
    (upd : QuizSession) (hupd : upd.id = sid) (htid : tid = sid)
    (c : QuizSession) (hfind : l.find? (fun s => s.id == sid) = some c) :
    (l.map (fun s => if s.id == sid then upd else s)).find?
      (fun s => s.id == tid) = some upd := by
  rw [htid]
  rw [find?_map_pres (fun s => if s.id == sid then upd else s)
    (fun s => s.id == sid) ?hp l]
  case hp =>
    intro x
    cases hx : (x.id == sid) with
    | true => simp [hx, hupd]
    | false => simp [hx]
  rw [hfind]
  have hceq : c.id = sid := by simpa using List.find?_some hfind
  simp [hceq]

/-- Mapping an id-preserving function over the collection commutes with
`find?` on any target id. -/
lemma find?_idpres (g : QuizSession → QuizSession)
    (hg : ∀ s, (g s).id = s.id) (tid : String) (l : List QuizSession) :
    (l.map g).find? (fun s => s.id == tid) =
      (l.find? (fun s => s.id == tid)).map g := by
  apply find?_map_pres
  intro x
  simp [hg x]

/-! ## Claims -/

/-- C3: with no override credential set, `decrementCredits` returns false
without mutation when no credits remain, otherwise decrements by exactly one
and returns true; and from the initial allotment of 4, with no reset and no
override, at most 4 of any sequence of calls return true. -/
theorem decrementCredits_quota_semantics (st : CreditsState)
    (h : st.localApiKey = none) :
    (st.credits ≤ 0 → decrementCredits st = (false, st)) ∧
    (0 < st.credits →
      decrementCredits st = (true, { st with credits := st.credits - 1 })) ∧
    ∀ n : Nat, (runDecrements n initialCreditsState).1 ≤ 4 := by
  have key : ∀ (n : Nat) (st0 : CreditsState), st0.localApiKey = none →
      (runDecrements n st0).1 ≤ st0.credits.toNat := by
    intro n
    induction n with
    | zero => intro st0 _; simp [runDecrements]
    | succ n ih =>
      intro st0 h0
      by_cases hc : st0.credits ≤ 0
      · have hdec : decrementCredits st0 = (false, st0) := by
          simp [decrementCredits, strTruthy, h0, hc]
        simp only [runDecrements, hdec]
        simp only [if_false, Bool.false_eq_true, Nat.zero_add]
        exact ih st0 h0
      · have hdec : decrementCredits st0 =
            (true, { st0 with credits := st0.credits - 1 }) := by
          simp [decrementCredits, strTruthy, h0, hc]
        have := ih { st0 with credits := st0.credits - 1 } h0
        simp only [runDecrements, hdec, if_true] at this ⊢
        omega
  refine ⟨?_, ?_, ?_⟩
  · intro hc
    simp [decrementCredits, strTruthy, h, hc]
  · intro hc
    simp [decrementCredits, strTruthy, h, hc]
  · intro n
    have := key n initialCreditsState rfl
    simpa [initialCreditsState, INITIAL_CREDITS] using this

/-- Witness for C3 at the initial credits state. -/
theorem decrementCredits_quota_semantics_witness :
    initialCreditsState.localApiKey = none ∧
    ((initialCreditsState.credits ≤ 0 →
        decrementCredits initialCreditsState = (false, initialCreditsState)) ∧
      (0 < initialCreditsState.credits →
        decrementCredits initialCreditsState =
          (true, { initialCreditsState with
            credits := initialCreditsState.credits - 1 })) ∧
      ∀ n : Nat, (runDecrements n initialCreditsState).1 ≤ 4) :=
  ⟨rfl, decrementCredits_quota_semantics initialCreditsState rfl⟩

/-- C4: once an override credential (a non-empty local API key) is set and
not removed, every `decrementCredits` call returns true and the state — in
particular `credits` — is unchanged, for any number of consecutive calls. -/
theorem decrementCredits_override_bypass (st : CreditsState) (k : String)
    (h : st.localApiKey = some k) (hk : k ≠ "") :
    decrementCredits st = (true, st) ∧
    ∀ n : Nat, runDecrements n st = (n, st) := by
  have hdec : decrementCredits st = (true, st) := by
    simp [decrementCredits, strTruthy, h, hk]
  refine ⟨hdec, ?_⟩
  intro n
  induction n with
  | zero => rfl
  | succ n ih =>
    simp [runDecrements, hdec, ih]
    omega

/-- Witness for C4: set a key on the initial state and run any number of
calls. -/
theorem decrementCredits_override_bypass_witness :
    (setLocalApiKey "sk-user-key" initialCreditsState).localApiKey =
      some "sk-user-key" ∧
    "sk-user-key" ≠ "" ∧
    (decrementCredits (setLocalApiKey "sk-user-key" initialCreditsState) =
        (true, setLocalApiKey "sk-user-key" initialCreditsState) ∧
      ∀ n : Nat, runDecrements n
          (setLocalApiKey "sk-user-key" initialCreditsState) =
        (n, setLocalApiKey "sk-user-key" initialCreditsState)) :=
  ⟨rfl, by decide,
    decrementCredits_override_bypass
      (setLocalApiKey "sk-user-key" initialCreditsState) "sk-user-key" rfl
      (by decide)⟩

/-- C1: `saveAnswer` (recordAnswer) is last-write-wins per question on the
current session: for a current session holding at most one answer for `q`
(the store invariant), recording `v1` then `v2` for `q` leaves exactly one
answer entry for `q`, holding `v2`; with no current session, `saveAnswer`
leaves the state unchanged (total function — it cannot throw). -/
theorem saveAnswer_last_write_wins (st : SessionState) (cur : QuizSession)
    (q : String) (v1 v2 : AnswerValue) (t1 t2 : Nat)
    (hcur : st.currentSession = some cur)
    (hdup : (cur.userAnswers.filter (fun a => a.questionId == q)).length ≤ 1) :
    (∃ cur2 : QuizSession,
      (saveAnswer q v2 t2 (saveAnswer q v1 t1 st)).currentSession =
        some cur2 ∧
      cur2.userAnswers.filter (fun a => a.questionId == q) =
        [{ questionId := q, answer := v2, isCorrect := none,
           timestamp := t2 }]) ∧
    ∀ st0 : SessionState, st0.currentSession = none →
      saveAnswer q v2 t2 st0 = st0 := by
  constructor
  · simp only [saveAnswer, hcur]
    refine ⟨_, rfl, ?_⟩
    exact upsert_upsert_filter q
      { questionId := q, answer := v1, isCorrect := none, timestamp := t1 }
      { questionId := q, answer := v2, isCorrect := none, timestamp := t2 }
      rfl rfl cur.userAnswers hdup
  · intro st0 h0
    simp [saveAnswer, h0]

/-- Witness for C1 on a concrete one-question session. -/
theorem saveAnswer_last_write_wins_witness :
    sampleState.currentSession = some sampleSession ∧
    (sampleSession.userAnswers.filter
      (fun a => a.questionId == "mcq_0")).length ≤ 1 ∧
    ((∃ cur2 : QuizSession,
      (saveAnswer "mcq_0" (AnswerValue.str "b") 2
        (saveAnswer "mcq_0" (AnswerValue.str "a") 1
          sampleState)).currentSession = some cur2 ∧
      cur2.userAnswers.filter (fun a => a.questionId == "mcq_0") =
        [{ questionId := "mcq_0", answer := AnswerValue.str "b",
           isCorrect := none, timestamp := 2 }]) ∧
    ∀ st0 : SessionState, st0.currentSession = none →
      saveAnswer "mcq_0" (AnswerValue.str "b") 2 st0 = st0) :=
  ⟨rfl, by decide,
    saveAnswer_last_write_wins sampleState sampleSession "mcq_0"
      (AnswerValue.str "a") (AnswerValue.str "b") 1 2 rfl (by decide)⟩

/-- C7: for every session id present in the collection and every analysis
value, `saveAnalysis` (attachAnalysis) sets the stored session's `analysis`
to the given value (overwriting any prior one) and its `isCompleted` flag to
`true`, with no condition on how many questions were answered. -/
theorem saveAnalysis_completes (st : SessionState) (sid : String)
    (an : SessionAnalysis) (s : QuizSession)
    (h : getSessionById sid st = some s) :
    getSessionById sid (saveAnalysis sid an st) =
      some { s with analysis := some an, isCompleted := true } := by
  unfold getSessionById at h
  have hps : (s.id == sid) = true := by simpa using List.find?_some h
  unfold getSessionById saveAnalysis
  rw [find?_map_pres
    (fun session => if session.id == sid then
      { session with analysis := some an, isCompleted := true }
      else session)
    (fun session => session.id == sid) ?hpres st.sessions]
  case hpres =>
    intro x
    cases hx : (x.id == sid) with
    | true => simp [hx]
    | false => simp [hx]
  rw [h]
  have hid : s.id = sid := by simpa using hps
  simp [hid]

/-- Witness for C7 on the sample state. -/
theorem saveAnalysis_completes_witness :
    getSessionById "s1" sampleState = some sampleSession ∧
    getSessionById "s1" (saveAnalysis "s1" sampleAnalysis sampleState) =
      some { sampleSession with
             analysis := some sampleAnalysis
             isCompleted := true } :=
  ⟨rfl,
    saveAnalysis_completes sampleState "s1" sampleAnalysis sampleSession rfl⟩

/-- C2 (counterexample): on the reachable state obtained by creating one
session (which becomes current), `updateSessionName` on that session leaves
the cached `currentSession` with the old name while the collection entry is
renamed, so the two copies are no longer deep-equal — refuting the claim for
the operation list as stated (which includes `updateSessionName`). -/
theorem dual_copy_counterexample :
    dualCopyOK (createSession "A" "T" sampleRaw QUESTION_CONFIG_DEFAULT 0 "r"
      initialSessionState).2 = true ∧
    dualCopyOK (updateSessionName "session_0_r" "B"
      (createSession "A" "T" sampleRaw QUESTION_CONFIG_DEFAULT 0 "r"
        initialSessionState).2) = false := by
  constructor
  · rfl
  · rfl

/-- C2 (amended): after any of the mutating operations `createSession`,
`setCurrentSession`, `saveAnswer`, `clearAnswers`, `markSessionCompleted`,
`saveAnalysis`, `refreshSession` — i.e. all those of the claim except
`updateSessionName` — a state satisfying dual-copy consistency still
satisfies it: the cached `currentSession` stays deep-equal to its
collection entry.  (`updateSessionName` is excluded: it renames only the
collection entry.) -/
theorem dual_copy_amended (op : MutOp) (st : SessionState)
    (h : dualCopyOK st = true) : dualCopyOK (applyMutOp op st) = true := by
  cases op with
  | create n t qs c now r =>
    apply dualCopyOK_intro
    intro c0 hc0
    simp only [applyMutOp, createSession] at hc0 ⊢
    obtain rfl := Option.some.inj hc0
    unfold getSessionById
    exact List.find?_cons_of_pos _ (by simp)
  | setCurrent sid now =>
    simp only [applyMutOp, setCurrentSession]
    cases hfind : st.sessions.find? (fun s => s.id == sid) with
    | none => simpa [hfind] using h
    | some session =>
      simp only [hfind]
      apply dualCopyOK_intro
      intro c0 hc0
      dsimp only at hc0
      obtain rfl := Option.some.inj hc0
      unfold getSessionById
      dsimp only
      refine find?_replace st.sessions sid session.id _ ?_ ?_ session hfind
      · simpa using List.find?_some hfind
      · simpa using List.find?_some hfind
  | save q v now =>
    simp only [applyMutOp, saveAnswer]
    cases hcs : st.currentSession with
    | none => simpa [hcs] using h
    | some cur =>
      simp only [hcs]
      have hfind := dualCopyOK_some h hcs
      apply dualCopyOK_intro
      intro c0 hc0
      dsimp only at hc0
      obtain rfl := Option.some.inj hc0
      unfold getSessionById
      dsimp only
      exact find?_replace st.sessions cur.id cur.id _ rfl rfl cur hfind
  | clear sid =>
    simp only [applyMutOp, clearAnswers]
    cases hcs : st.currentSession with
    | none =>
      simp only [hcs]
      apply dualCopyOK_intro
      intro c0 hc0
      simp at hc0
    | some c =>
      simp only [hcs]
      have hfind := dualCopyOK_some h hcs
      cases hcid : (c.id == sid) with
      | true =>
        simp only [hcid, if_true]
        apply dualCopyOK_intro
        intro c0 hc0
        dsimp only at hc0
        obtain rfl := Option.some.inj hc0
        unfold getSessionById
        dsimp only
        rw [find?_idpres _
          (by intro s; cases hx : (s.id == sid) <;> simp [hx]) c.id
          st.sessions]
        rw [hfind]
        have hce : c.id = sid := by simpa using hcid
        simp [hce]
      | false =>
        simp only [hcid, Bool.false_eq_true, if_false]
        apply dualCopyOK_intro
        intro c0 hc0
        dsimp only at hc0
        obtain rfl := Option.some.inj hc0
        unfold getSessionById
        dsimp only
        rw [find?_idpres _
          (by intro s; cases hx : (s.id == sid) <;> simp [hx]) c.id
          st.sessions]
        rw [hfind]
        simp [hcid]
        intro hce
        exact absurd hce (by simpa using hcid)
  | markCompleted sid =>
    simp only [applyMutOp, markSessionCompleted]
    cases hcs : st.currentSession with
    | none =>
      simp only [hcs]
      apply dualCopyOK_intro
      intro c0 hc0
      simp at hc0
    | some c =>
      simp only [hcs]
      have hfind := dualCopyOK_some h hcs
      cases hcid : (c.id == sid) with
      | true =>
        simp only [hcid, if_true]
        apply dualCopyOK_intro
        intro c0 hc0
        dsimp only at hc0
        obtain rfl := Option.some.inj hc0
        unfold getSessionById
        dsimp only
        rw [find?_idpres _
          (by intro s; cases hx : (s.id == sid) <;> simp [hx]) c.id
          st.sessions]
        rw [hfind]
        have hce : c.id = sid := by simpa using hcid
        simp [hce]
      | false =>
        simp only [hcid, Bool.false_eq_true, if_false]
        apply dualCopyOK_intro
        intro c0 hc0
        dsimp only at hc0
        obtain rfl := Option.some.inj hc0
        unfold getSessionById
        dsimp only
        rw [find?_idpres _
          (by intro s; cases hx : (s.id == sid) <;> simp [hx]) c.id
          st.sessions]
        rw [hfind]
        simp [hcid]
        intro hce
        exact absurd hce (by simpa using hcid)
  | attachAnalysis sid an =>
    simp only [applyMutOp, saveAnalysis]
    cases hcs : st.currentSession with
    | none =>
      simp only [hcs]
      apply dualCopyOK_intro
      intro c0 hc0
      simp at hc0
    | some c =>
      simp only [hcs]
      have hfind := dualCopyOK_some h hcs
      cases hcid : (c.id == sid) with
      | true =>
        simp only [hcid, if_true]
        apply dualCopyOK_intro
        intro c0 hc0
        dsimp only at hc0
        obtain rfl := Option.some.inj hc0
        unfold getSessionById
        dsimp only
        rw [find?_idpres _
          (by intro s; cases hx : (s.id == sid) <;> simp [hx]) c.id
          st.sessions]
        rw [hfind]
        have hce : c.id = sid := by simpa using hcid
        simp [hce]
      | false =>
        simp only [hcid, Bool.false_eq_true, if_false]
        apply dualCopyOK_intro
        intro c0 hc0
        dsimp only at hc0
        obtain rfl := Option.some.inj hc0
        unfold getSessionById
        dsimp only
        rw [find?_idpres _
          (by intro s; cases hx : (s.id == sid) <;> simp [hx]) c.id
          st.sessions]
        rw [hfind]
        simp [hcid]
        intro hce
        exact absurd hce (by simpa using hcid)
  | refresh sid now =>
    simp only [applyMutOp, refreshSession]
    cases hfind : st.sessions.find? (fun s => s.id == sid) with
    | none => simpa [hfind] using h
    | some session =>
      simp only [hfind]
      apply dualCopyOK_intro
      intro c0 hc0
      dsimp only at hc0
      obtain rfl := Option.some.inj hc0
      unfold getSessionById
      dsimp only
      refine find?_replace st.sessions sid session.id _ ?_ ?_ session hfind
      · simpa using List.find?_some hfind
      · simpa using List.find?_some hfind

/-- Witness for C2 (amended): recording an answer on the sample state. -/
theorem dual_copy_amended_witness :
    dualCopyOK sampleState = true ∧
    dualCopyOK (applyMutOp
      (MutOp.save "mcq_0" (AnswerValue.str "a") 3) sampleState) = true :=
  ⟨by decide,
    dual_copy_amended (MutOp.save "mcq_0" (AnswerValue.str "a") 3)
      sampleState (by decide)⟩

lemma mem_upsertAnswer {a na : UserAnswer} {q : String}
    {l : List UserAnswer} (h : a ∈ upsertAnswer q na l) : a ∈ l ∨ a = na := by
  unfold upsertAnswer at h
  cases hf : l.findIdx? (fun x => x.questionId == q) with
  | none =>
    rw [hf] at h
    rcases List.mem_append.mp h with hm | hm
    · exact Or.inl hm
    · simp at hm
      exact Or.inr hm
  | some i =>
    rw [hf] at h
    exact List.mem_or_eq_of_mem_set h

/-- Upserting an answer whose question id belongs to the session's question
list preserves the per-session foreign-key invariant. -/
lemma fkSession_upsert (cur : QuizSession) (q : String) (na : UserAnswer)
    (hna : na.questionId = q) (hcur : fkSession cur = true)
    (hq : cur.questions.any (fun qu => qu.id == q) = true) (now : Nat) :
    fkSession { cur with
      userAnswers := upsertAnswer q na cur.userAnswers
      lastAccessed := now } = true := by
  unfold fkSession at hcur ⊢
  dsimp only
  rw [List.all_eq_true] at hcur ⊢
  intro a ha
  rcases mem_upsertAnswer ha with hmem | rfl
  · exact hcur a hmem
  · rw [hna]
    exact hq

/-- C9 (counterexample): on the reachable state obtained by creating one
session whose single question has id `mcq_0` (where the foreign-key
invariant holds), `saveAnswer` with the unknown question id `bogus` records
an answer whose `questionId` matches no question of the session, so the
invariant is violated — `saveAnswer` does not validate its argument. -/
theorem fk_counterexample :
    fkState (createSession "A" "T" sampleRaw QUESTION_CONFIG_DEFAULT 0 "r"
      initialSessionState).2 = true ∧
    fkState (saveAnswer "bogus" (AnswerValue.str "x") 1
      (createSession "A" "T" sampleRaw QUESTION_CONFIG_DEFAULT 0 "r"
        initialSessionState).2) = false := ⟨rfl, rfl⟩

/-- C9 (amended): `saveAnswer` performs no validation; it preserves the
answer foreign-key invariant exactly under the proviso that the recorded
`questionId` is the id of some question of the current session (vacuous when
no current session is set). -/
theorem fk_preserved_for_known_question (st : SessionState) (q : String)
    (v : AnswerValue) (now : Nat) (h : fkState st = true)
    (hq : ∀ c, st.currentSession = some c →
      c.questions.any (fun qu => qu.id == q) = true) :
    fkState (saveAnswer q v now st) = true := by
  cases hcs : st.currentSession with
  | none => simpa [saveAnswer, hcs] using h
  | some cur =>
    have hq2 := hq cur hcs
    unfold fkState at h
    rw [hcs] at h
    simp only [Bool.and_eq_true] at h
    obtain ⟨hall, hcur⟩ := h
    rw [List.all_eq_true] at hall
    have hupd := fkSession_upsert cur q
      { questionId := q, answer := v, isCorrect := none, timestamp := now }
      rfl hcur hq2 now
    simp only [saveAnswer, hcs]
    unfold fkState
    dsimp only
    simp only [Bool.and_eq_true]
    constructor
    · rw [List.all_eq_true]
      intro x hx
      rw [List.mem_map] at hx
      obtain ⟨y, hy, rfl⟩ := hx
      cases hyid : (y.id == cur.id) with
      | true =>
        simp only [hyid, if_true]
        exact hupd
      | false =>
        simp only [hyid, Bool.false_eq_true, if_false]
        exact hall y hy
    · exact hupd

/-- Witness for C9 (amended) on the sample state, recording an answer to
the existing question `mcq_0`. -/
theorem fk_preserved_for_known_question_witness :
    fkState sampleState = true ∧
    fkState (saveAnswer "mcq_0" (AnswerValue.str "a") 2 sampleState) = true :=
  ⟨by decide,
    fk_preserved_for_known_question sampleState "mcq_0"
      (AnswerValue.str "a") 2 (by decide)
      (by
        intro c hc
        obtain rfl := Option.some.inj hc
        decide)⟩

/-- The `(id, type)` image of one indexed conversion loop is the indexed tag
sequence. -/
lemma convertFrom_map_idtype (mk : Nat → α → Question) (tag : String)
    (ty : QType)
    (hmk : ∀ (i : Nat) (x : α),
      ((mk i x).id, (mk i x).type) = (tag ++ "_" ++ toString i, ty)) :
    ∀ (l : List α) (i : Nat),
      (convertFrom mk i l).map (fun qu => (qu.id, qu.type)) =
        (List.range' i l.length).map
          (fun j => (tag ++ "_" ++ toString j, ty)) := by
  intro l
  induction l with
  | nil => intro i; rfl
  | cons x xs ih =>
    intro i
    simp only [convertFrom, List.map_cons, List.length_cons,
      List.range'_succ]
    rw [ih (i + 1), hmk i x]

/-- The `(id, type)` image of one kind chunk of `convertQuestionsFormat`. -/
lemma convert_chunk (o : Option (List α)) (mk : Nat → α → Question)
    (tag : String) (ty : QType)
    (hmk : ∀ (i : Nat) (x : α),
      ((mk i x).id, (mk i x).type) = (tag ++ "_" ++ toString i, ty)) :
    (convertChunk o mk).map (fun qu : Question => (qu.id, qu.type)) =
      kindIds tag ty (o.getD []).length := by
  cases o with
  | none => rfl
  | some l =>
    unfold convertChunk kindIds
    rw [List.range_eq_range']
    exact convertFrom_map_idtype mk tag ty hmk l 0

/-- C6: the normalizer iterates the kind arrays in the fixed order mcq,
fill, true_false, short, long, assigning ids `kindTag_index` with tags
mcq/fill/tf/short/long and the index the position within the kind array;
absent kind arrays behave exactly like empty ones; and the function is
deterministic (identical input yields an identical sequence). -/
theorem convertQuestionsFormat_reference (data : RawData) :
    ((convertQuestionsFormat data).map (fun qu => (qu.id, qu.type)) =
      kindIds "mcq" QType.mcq (data.mcqs.getD []).length ++
      kindIds "fill" QType.fill (data.fill_in_the_blanks.getD []).length ++
      kindIds "tf" QType.true_false (data.true_false.getD []).length ++
      kindIds "short" QType.short (data.short_type.getD []).length ++
      kindIds "long" QType.long (data.long_type.getD []).length) ∧
    convertQuestionsFormat data =
      convertQuestionsFormat (withAbsentEmpty data) ∧
    ∀ data2 : RawData, data = data2 →
      convertQuestionsFormat data = convertQuestionsFormat data2 := by
  refine ⟨?_, ?_, ?_⟩
  · have h1 := convert_chunk data.mcqs
      (fun index mcq =>
        { id := "mcq_" ++ toString index, question := mcq.question,
          type := QType.mcq, options := some mcq.options,
          answer := mcq.answer, explanation := mcq.explanation,
          points := none }) "mcq" QType.mcq (fun i x => rfl)
    have h2 := convert_chunk data.fill_in_the_blanks
      (fun index fill =>
        { id := "fill_" ++ toString index, question := fill.question,
          type := QType.fill, options := none,
          answer := fill.answer, explanation := fill.explanation,
          points := none }) "fill" QType.fill (fun i x => rfl)
    have h3 := convert_chunk data.true_false
      (fun index tf =>
        { id := "tf_" ++ toString index, question := tf.question,
          type := QType.true_false, options := none,
          answer := toString tf.answer, explanation := tf.explanation,
          points := none }) "tf" QType.true_false (fun i x => rfl)
    have h4 := convert_chunk data.short_type
      (fun index short =>
        { id := "short_" ++ toString index, question := short.question,
          type := QType.short, options := none,
          answer := short.answer, explanation := none,
          points := short.points }) "short" QType.short (fun i x => rfl)
    have h5 := convert_chunk data.long_type
      (fun index long =>
        { id := "long_" ++ toString index, question := long.question,
          type := QType.long, options := none,
          answer := long.answer, explanation := none,
          points := long.points }) "long" QType.long (fun i x => rfl)
    unfold convertQuestionsFormat
    simp only [List.map_append]
    rw [h1, h2, h3, h4, h5]
  · obtain ⟨m, f, t, sh, lo⟩ := data
    unfold withAbsentEmpty convertQuestionsFormat convertChunk
    cases m <;> cases f <;> cases t <;> cases sh <;> cases lo <;> rfl
  · intro data2 h2
    rw [h2]

/-- Witness for C6 at the concrete one-MCQ raw result. -/
theorem convertQuestionsFormat_reference_witness :
    ((convertQuestionsFormat sampleRaw).map (fun qu => (qu.id, qu.type)) =
      kindIds "mcq" QType.mcq (sampleRaw.mcqs.getD []).length ++
      kindIds "fill" QType.fill
        (sampleRaw.fill_in_the_blanks.getD []).length ++
      kindIds "tf" QType.true_false (sampleRaw.true_false.getD []).length ++
      kindIds "short" QType.short (sampleRaw.short_type.getD []).length ++
      kindIds "long" QType.long (sampleRaw.long_type.getD []).length) ∧
    convertQuestionsFormat sampleRaw =
      convertQuestionsFormat (withAbsentEmpty sampleRaw) ∧
    ∀ data2 : RawData, sampleRaw = data2 →
      convertQuestionsFormat sampleRaw = convertQuestionsFormat data2 :=
  convertQuestionsFormat_reference sampleRaw

/-- C10: `getRecentSessions` is not a side-effect-free query — the JS
in-place `sort` leaves the store's `sessions` array itself ordered by
`lastAccessed` descending (a permutation of the old collection, so the
insertion/prepend order is in general not preserved, as the final
existential shows on a concrete state), while the returned value is the
first `limit` elements of that now-sorted stored array; `currentSession` is
untouched. -/
theorem getRecentSessions_sorts_in_place (st : SessionState) (limit : Nat) :
    (getRecentSessions limit st).2.sessions.Pairwise byLastAccessedDesc ∧
    (getRecentSessions limit st).2.sessions.Perm st.sessions ∧
    (getRecentSessions limit st).2.currentSession = st.currentSession ∧
    (getRecentSessions limit st).1 =
      (getRecentSessions limit st).2.sessions.take limit ∧
    ∃ st0 : SessionState,
      (getRecentSessions 5 st0).2.sessions ≠ st0.sessions := by
  refine ⟨?_, ?_, rfl, rfl, ?_⟩
  · exact List.sorted_insertionSort byLastAccessedDesc st.sessions
  · exact List.perm_insertionSort byLastAccessedDesc st.sessions
  · exact ⟨unsortedState, by decide⟩

/-- C5: if credit consumption (`checkCreditsAndDeduct`) returns false, the
generation request fails with the quota-exhausted error `NO_CREDITS`,
returns null, and the external generation collaborator is never invoked. -/
theorem quota_exhausted_short_circuit (files : List UploadedFile)
    (prompt : Option String) (config : Option QuestionConfig) (now : Nat)
    (rand : String) (st : CreditsState) (api : GenCall → ExtResponse)
    (h : (checkCreditsAndDeduct st).1 = false) :
    (generateWithContext files prompt config now rand st api).value = none ∧
    (generateWithContext files prompt config now rand st api).error =
      some noCreditsApiError ∧
    (generateWithContext files prompt config now rand st api).calls = [] := by
  unfold generateWithContext
  simp [h]

/-- Witness for C5: an exhausted no-override credits state. -/
theorem quota_exhausted_short_circuit_witness :
    (checkCreditsAndDeduct exhaustedCreditsState).1 = false ∧
    ((generateWithContext [] none none 0 "r" exhaustedCreditsState
        (fun _ => nullExtResponse)).value = none ∧
      (generateWithContext [] none none 0 "r" exhaustedCreditsState
        (fun _ => nullExtResponse)).error = some noCreditsApiError ∧
      (generateWithContext [] none none 0 "r" exhaustedCreditsState
        (fun _ => nullExtResponse)).calls = []) :=
  ⟨rfl,
    quota_exhausted_short_circuit [] none none 0 "r" exhaustedCreditsState
      (fun _ => nullExtResponse) rfl⟩

/-- C8 (counterexample): a request with zero files and no prompt whose
config violates the zod bounds (`mcqs = 25`) is rejected with
`VALIDATION_ERROR`, not `NO_CONTENT` — the schema validation runs before
the no-content check, refuting the claim that every zero-content request is
rejected with the NoContent kind. -/
theorem no_content_counterexample :
    (generateWithContextHandler [] none badConfig 0 "r"
      (GenOutcome.ok sampleRaw)).errorCode = some "VALIDATION_ERROR" ∧
    (generateWithContextHandler [] none badConfig 0 "r"
      (GenOutcome.ok sampleRaw)).errorCode ≠ some "NO_CONTENT" :=
  ⟨rfl, by decide⟩

/-- C8 (amended): a generation request with zero files and no (or empty)
prompt whose config passes the zod bounds validation is rejected with error
kind `NO_CONTENT` (status 400) with zero invocations of the external
generation service and no session id created; a request whose config fails
validation is instead rejected with `VALIDATION_ERROR`, likewise with zero
external invocations and no session. -/
theorem no_content_amended (processedFiles : List ProcessedFile)
    (prompt : Option String) (config : QuestionConfig) (now : Nat)
    (rand : String) (gen : GenOutcome)
    (hv : validConfig config = true)
    (hf : processedFiles = [])
    (hp : normPrompt prompt = none) :
    generateWithContextHandler processedFiles prompt config now rand gen =
      { status := 400
        success := false
        errorCode := some "NO_CONTENT"
        sessionId := none
        genCalls := 0 } ∧
    ∀ cfg2 : QuestionConfig, validConfig cfg2 = false →
      generateWithContextHandler processedFiles prompt cfg2 now rand gen =
        { status := 400
          success := false
          errorCode := some "VALIDATION_ERROR"
          sessionId := none
          genCalls := 0 } := by
  subst hf
  constructor
  · unfold generateWithContextHandler
    simp [hv, hp]
  · intro cfg2 h2
    unfold generateWithContextHandler
    simp [h2]

/-- Witness for C8 (amended): empty request with the default config and
with the out-of-bounds config. -/
theorem no_content_amended_witness :
    validConfig QUESTION_CONFIG_DEFAULT = true ∧
    ([] : List ProcessedFile) = [] ∧
    normPrompt (some "") = none ∧
    (generateWithContextHandler [] (some "") QUESTION_CONFIG_DEFAULT 0 "r"
        (GenOutcome.ok sampleRaw) =
      { status := 400
        success := false
        errorCode := some "NO_CONTENT"
        sessionId := none
        genCalls := 0 } ∧
    ∀ cfg2 : QuestionConfig, validConfig cfg2 = false →
      generateWithContextHandler [] (some "") cfg2 0 "r"
          (GenOutcome.ok sampleRaw) =
        { status := 400
          success := false
          errorCode := some "VALIDATION_ERROR"
          sessionId := none
          genCalls := 0 }) :=
  ⟨rfl, rfl, rfl,
    no_content_amended [] (some "") QUESTION_CONFIG_DEFAULT 0 "r"
      (GenOutcome.ok sampleRaw) rfl rfl rfl⟩

end AIExams
